import Mathlib

/-!
Verification of the resilient automation layer of `gpt_creator_standalone.py`.

The Python source drives a browser through Playwright.  We give a shallow
embedding: every external operation (selector resolution, navigation,
health probes, file IO outcomes) is an oracle recorded in an environment
structure, and each Python function becomes a pure Lean function over that
environment which returns its result in `Except PyExc` (exceptions) together
with a trace of the UI actions it performed and the resulting page state.
-/

set_option maxHeartbeats 1000000

namespace GPTCreator

/-- The two exception classes relevant to control flow in the source:
`BrowserCrashedException` and every other `Exception`. -/
inductive PyExc where
  | browserCrashed (msg : String)
  | generic (msg : String)
  deriving Repr, DecidableEq

def PyExc.message : PyExc → String
  | .browserCrashed m => m
  | .generic m => m

/-- Oracle for one execution of `is_browser_alive` (lines 162-174):
which references are set, what `page.is_closed()` returns (`none` means the
call raised), and whether `page.evaluate` succeeded (`none` means it raised). -/
structure HealthEnv where
  browserPresent : Bool
  pagePresent : Bool
  contextPresent : Bool
  isClosedResult : Option Bool
  evalResult : Option Unit
  deriving Repr, DecidableEq

/-- Model of `GPTManager.is_browser_alive` (lines 162-174).  The whole body is inside
`try`/`except Exception`, so a raise from `is_closed` or `evaluate` yields
`False`. -/
def is_browser_alive (e : HealthEnv) : Bool :=
  if !e.browserPresent || !e.pagePresent || !e.contextPresent then false
  else
    match e.isClosedResult with
    | none => false
    | some true => false
    | some false =>
      match e.evalResult with
      | none => false
      | some _ => true

/-- Model of `GPTManager.ensure_browser_alive` (lines 176-180). -/
def ensure_browser_alive (e : HealthEnv) : Except PyExc Unit :=
  if is_browser_alive e then .ok () else .error (.browserCrashed "Browser is not responsive")

/-- Oracle for one execution of `login_to_openai` (lines 182-232). -/
structure LoginEnv where
  gotoThrows : Bool
  waitLoadThrows : Bool
  aliveAfterNav : HealthEnv
  loginButtonFound : Bool
  clickThrows : Bool
  profileButtonFound : Bool
  aliveAfterLogin : HealthEnv
  deriving Repr, DecidableEq

/-- Body of the inner `try` at lines 208-223: click the login button, wait for
the profile button (3-minute bound), then `ensure_browser_alive`. -/
def loginWaitBody (e : LoginEnv) : Except PyExc Bool :=
  if e.clickThrows then .error (.generic "click failed")
  else if !e.profileButtonFound then .error (.generic "Timeout 180000ms exceeded")
  else
    match ensure_browser_alive e.aliveAfterLogin with
    | .error ex => .error ex
    | .ok _ => .ok true

/-- The inner handler at lines 224-226: `except Exception as e: raise
Exception(f"Login failed: {e}")`.  `BrowserCrashedException` is a subclass of
`Exception`, so it is caught here too and re-wrapped as a generic exception. -/
def loginWait (e : LoginEnv) : Except PyExc Bool :=
  match loginWaitBody e with
  | .ok b => .ok b
  | .error ex => .error (.generic ("Login failed: " ++ ex.message))

/-- Body of the outer `try` of `login_to_openai` (lines 184-226): navigate,
wait for load, `ensure_browser_alive`, detect the login button (absence means
already logged in, line 202-205), then the login-wait block. -/
def loginBody (e : LoginEnv) : Except PyExc Bool :=
  if e.gotoThrows then .error (.generic "goto failed")
  else if e.waitLoadThrows then .error (.generic "wait_for_load_state failed")
  else
    match ensure_browser_alive e.aliveAfterNav with
    | .error ex => .error ex
    | .ok _ =>
      if !e.loginButtonFound then .ok true
      else loginWait e

/-- Model of `GPTManager.login_to_openai` (lines 182-232) with its outer handlers:
`except BrowserCrashedException: raise` then `except Exception: return False`. -/
def login_to_openai (e : LoginEnv) : Except PyExc Bool :=
  match loginBody e with
  | .ok b => .ok b
  | .error (.browserCrashed m) => .error (.browserCrashed m)
  | .error (.generic _) => .ok false

/-- A text input as Playwright exposes it: its content and whether a
select-all is currently active. -/
structure TextField where
  content : String
  allSelected : Bool
  deriving Repr, DecidableEq

/-- Model of `element.click()`: focuses the element, collapsing any selection. -/
def clickOn (f : TextField) : TextField := { f with allSelected := false }

/-- Model of `keyboard.press("Control+a")`: select the whole content. -/
def pressCtrlA (f : TextField) : TextField := { f with allSelected := true }

/-- Model of `element.fill(v)`: Playwright clears the field and sets it to `v`
regardless of prior content or selection. -/
def fillValue (_f : TextField) (v : String) : TextField := ⟨v, false⟩

/-- The write sequence the source uses for every field: click, select all,
fill (e.g. lines 368-370, 382-384, 411-413, 695-697). -/
def overwrite_fill (f : TextField) (v : String) : TextField :=
  fillValue (pressCtrlA (clickOn f)) v

/-- The editor fields touched by the fill phase. -/
structure PageState where
  nameField : TextField
  descField : TextField
  instrField : TextField
  schemaField : TextField
  deriving Repr, DecidableEq

/-- UI actions the workflow performs, recorded as a trace. -/
inductive UIEvent where
  | clickConfigureTab
  | fillName (v : String)
  | fillDescription (v : String)
  | fillInstructions (v : String)
  | fillStarter (slot : Nat) (text : String)
  | clearStarters
  | clickExistingAction
  | clickCreateAction
  | fillSchema (v : String)
  | clickActionSave
  | clickSaveButton (selectorIdx : Nat)
  | clickOnlyMe
  | clickDialogSave
  | clickViewGpt
  deriving Repr, DecidableEq

/-- The parsed configuration document (section 6 of the design).
`openapiSpec` is `some s` when `openapi_spec_file` is present, with `s` the
serialized (`json.dumps`) schema text written into the editor. -/
structure Config where
  name : String
  description : String
  instructions : String
  conversation_starters : List String
  openapiSpec : Option String
  deriving Repr, DecidableEq

/-- Oracle for `navigate_to_gpt_builder` (lines 234-260). -/
structure NavEnv where
  gotoThrows : Bool
  aliveAfterNav : HealthEnv
  deriving Repr, DecidableEq

/-- Model of `GPTManager.navigate_to_gpt_builder` (lines 234-260): a generic failure is
swallowed into `False`; a crash from `ensure_browser_alive` is re-raised. -/
def navigate_to_gpt_builder (e : NavEnv) : Except PyExc Bool :=
  if e.gotoThrows then .ok false
  else
    match ensure_browser_alive e.aliveAfterNav with
    | .error ex => .error ex
    | .ok _ => .ok true

/-- Oracle for `check_existing_gpt` (lines 262-321).  The container-scanning
loop is abstracted into `foundMatch`: whether a container matched the target
name and one of its buttons was clicked. -/
structure CheckEnv where
  aliveAtEntry : HealthEnv
  navThrows : Bool
  aliveAfterNav : HealthEnv
  foundMatch : Bool
  deriving Repr, DecidableEq

/-- Model of `GPTManager.check_existing_gpt` (lines 262-321): generic failures become
`None`; crashes from the two health checks are re-raised (lines 316-318). -/
def check_existing_gpt (e : CheckEnv) : Except PyExc (Option String) :=
  match ensure_browser_alive e.aliveAtEntry with
  | .error ex => .error ex
  | .ok _ =>
    if e.navThrows then .ok none
    else
      match ensure_browser_alive e.aliveAfterNav with
      | .error ex => .error ex
      | .ok _ => .ok (if e.foundMatch then some "EDIT_BUTTON_CLICKED" else none)

/-- Oracle for `add_conversation_starters` (lines 501-544) and its fallback
(lines 546-589): whether the section selector resolves, how many
`input[type="text"]` fields the section holds, per-slot fill success, and for
the fallback path whether a selector resolved per starter, whether the
resolved element was a button, and whether the re-wait after clicking it
succeeded. -/
structure StartersEnv where
  sectionResolves : Bool
  numInputs : Nat
  fillOk : Nat → Bool
  fbFound : Nat → Bool
  fbIsButton : Nat → Bool
  fbSecondOk : Nat → Bool

/-- The section-based loop at lines 514-530: `for i, starter in
enumerate(starters[:4])`, filling slot `i` when `i < len(text_inputs)` and the
fill does not raise. -/
def startersPrimaryFills (numInputs : Nat) (fillOk : Nat → Bool)
    (starters : List String) : List UIEvent :=
  (starters.take 4).enum.filterMap fun p =>
    if p.1 < numInputs && fillOk p.1 then some (.fillStarter p.1 p.2) else none

/-- Model of `add_conversation_starters_fallback` (lines 546-589): clear existing
starters, then for each of the first four starters locate an input (clicking
through a button if that is what resolved) and fill it. -/
def startersFallbackFills (e : StartersEnv) (starters : List String) : List UIEvent :=
  UIEvent.clearStarters ::
    ((starters.take 4).enum.filterMap fun p =>
      if e.fbFound p.1 && (!e.fbIsButton p.1 || e.fbSecondOk p.1) then
        some (.fillStarter p.1 p.2)
      else none)

/-- Model of `GPTManager.add_conversation_starters` (lines 501-544): the section-based
path when the section selector resolves, otherwise the fallback. -/
def add_conversation_starters (e : StartersEnv) (starters : List String) : List UIEvent :=
  if e.sectionResolves then startersPrimaryFills e.numInputs e.fillOk starters
  else startersFallbackFills e starters

/-- The criterion of lines 647-657: a button counts as an existing action
unless its text was read successfully, is non-empty, and contains
"create new action" (buttons whose text read raised are counted as existing). -/
def isExistingActionButton (t : Option String) : Bool :=
  match t with
  | none => true
  | some s => s.isEmpty || !(decide (("create new action".toList) <:+: s.toLower.toList))

/-- Oracle for `configure_actions` (lines 619-744) and its fallback
(lines 746-800). -/
structure ActionsEnv where
  aliveEntry : HealthEnv
  sectionResolves : Bool
  buttons : List (Option String)
  createBtnResolves : Bool
  schemaSpecific : Bool
  schemaFallbacks : List Bool
  actionSaveResolves : List Bool
  fbExistingFound : Bool
  fbActionsBtnFound : Bool
  fbSchemaFallbacks : List Bool

/-- Model of `configure_actions_fallback` (lines 746-800): click an existing-action
or actions button if one resolves, then write the schema through the generic
selector list.  Every failure is swallowed. -/
def configure_actions_fallback (e : ActionsEnv) (specText : String) (s : PageState) :
    PageState × List UIEvent :=
  let pickEvs : List UIEvent :=
    if e.fbExistingFound then [.clickExistingAction]
    else if e.fbActionsBtnFound then [.clickCreateAction] else []
  if e.fbSchemaFallbacks.contains true then
    ({ s with schemaField := overwrite_fill s.schemaField specText },
      pickEvs ++ [.fillSchema specText])
  else (s, pickEvs)

/-- Model of `GPTManager.configure_actions` (lines 619-744): entry health check
(crash re-raised at lines 740-742), pick an existing action or the create
button, write the serialized schema (click, select-all, fill), then click a
Create/Save/Update button for the sub-entity if one resolves. -/
def configure_actions (e : ActionsEnv) (specText : String) (s : PageState) :
    Except PyExc (PageState × List UIEvent) :=
  match ensure_browser_alive e.aliveEntry with
  | .error ex => .error ex
  | .ok _ =>
    if e.sectionResolves then
      let pickEvs : List UIEvent :=
        if (e.buttons.filter isExistingActionButton).isEmpty then
          (if e.createBtnResolves then [.clickCreateAction] else [])
        else [.clickExistingAction]
      let schemaWritten := e.schemaSpecific || e.schemaFallbacks.contains true
      let s1 := if schemaWritten then
          { s with schemaField := overwrite_fill s.schemaField specText } else s
      let schemaEvs : List UIEvent := if schemaWritten then [.fillSchema specText] else []
      let saveEvs : List UIEvent :=
        if e.actionSaveResolves.contains true then [.clickActionSave] else []
      .ok (s1, pickEvs ++ schemaEvs ++ saveEvs)
    else
      .ok (configure_actions_fallback e specText s)

/-- Which confirmation dialog `save_gpt` observes after clicking save
(lines 831-849): the Share-GPT dialog, the GPT-Updated dialog, or neither
within the 10-second bound. -/
inductive DialogKind where
  | shareGPT
  | gptUpdated
  | timeout
  deriving Repr, DecidableEq

/-- Oracle for the Share-GPT dialog sub-flow (lines 858-888). -/
structure ShareEnv where
  onlyMeFound : Bool
  dialogSaveFound : Bool
  deriving Repr, DecidableEq

/-- Oracle for `save_gpt` (lines 802-856): per-selector resolution of the six
save-button selectors, which dialog appears, and the dialog sub-flow oracles. -/
structure SaveEnv where
  aliveEntry : HealthEnv
  buttonResolves : List Bool
  dialog : DialogKind
  share : ShareEnv
  viewGptFound : Bool
  deriving Repr, DecidableEq

/-- Model of `handle_final_dialog` (lines 890-911): click "View GPT" if it resolves,
tolerating its absence; always returns `None`. -/
def handle_final_dialog (e : SaveEnv) : List UIEvent :=
  if e.viewGptFound then [.clickViewGpt] else []

/-- Model of `handle_share_gpt_dialog` (lines 858-888): click "Only me" if it
resolves, then the dialog Save button; only if that succeeded run the final
dialog sub-flow. -/
def handle_share_gpt_dialog (e : SaveEnv) : List UIEvent :=
  let onlyMeEvs : List UIEvent := if e.share.onlyMeFound then [.clickOnlyMe] else []
  if e.share.dialogSaveFound then
    onlyMeEvs ++ [.clickDialogSave] ++ handle_final_dialog e
  else onlyMeEvs

/-- Model of `GPTManager.save_gpt` (lines 802-856): entry health check, try the six
save selectors in order (the `for`/`else` returns `None` when all fail),
then branch on which dialog appeared; a dialog timeout is logged and
returns `None`. -/
def save_gpt (e : SaveEnv) : Except PyExc (List UIEvent) :=
  match ensure_browser_alive e.aliveEntry with
  | .error ex => .error ex
  | .ok _ =>
    match e.buttonResolves.findIdx? (fun b => b) with
    | none => .ok []
    | some k =>
      match e.dialog with
      | .timeout => .ok [.clickSaveButton k]
      | .shareGPT => .ok (.clickSaveButton k :: handle_share_gpt_dialog e)
      | .gptUpdated => .ok (.clickSaveButton k :: handle_final_dialog e)

/-- Oracle for one execution of `create_new_gpt` (lines 323-455). -/
structure CreateEnv where
  aliveEntry : HealthEnv
  gotoThrows : Bool
  aliveAfterBranch : HealthEnv
  nav : NavEnv
  nameResolves : Bool
  aliveAfterName : HealthEnv
  descSpecific : Bool
  aliveAfterDesc : HealthEnv
  descFallbacks : List Bool
  instrSpecific : Bool
  aliveAfterInstr : HealthEnv
  instrFallbacks : List Bool
  starters : StartersEnv
  openapiLoadThrows : Bool
  actions : ActionsEnv
  save : SaveEnv

/-- The navigation branch of `create_new_gpt` (lines 328-347): go to the
known URL, or continue after the clicked edit button, or open the builder.
`ok false` is the swallowed-generic-failure early return; errors are crashes. -/
def createPrologue (e : CreateEnv) (existing : Option String) : Except PyExc Bool :=
  match existing with
  | some _ =>
    if e.gotoThrows then .ok false
    else
      match ensure_browser_alive e.aliveAfterBranch with
      | .error ex => .error ex
      | .ok _ => .ok true
  | none =>
    match navigate_to_gpt_builder e.nav with
    | .error ex => .error ex
    | .ok false => .ok false
    | .ok true =>
      match ensure_browser_alive e.aliveAfterBranch with
      | .error ex => .error ex
      | .ok _ => .ok true

/-- The name block (lines 352-376): click, select-all, fill when the selector
resolves.  The trailing `ensure_browser_alive` sits inside the same `try`
whose handler only logs, so neither failure nor crash escapes this block. -/
def fillNamePhase (e : CreateEnv) (cfg : Config) (s : PageState) :
    PageState × List UIEvent :=
  if e.nameResolves then
    ({ s with nameField := overwrite_fill s.nameField cfg.name }, [.fillName cfg.name])
  else (s, [])

/-- The generic description selectors (lines 390-405): first resolving
selector wins. -/
def descFallbackPhase (e : CreateEnv) (cfg : Config) (s : PageState) :
    PageState × List UIEvent :=
  if e.descFallbacks.contains true then
    ({ s with descField := overwrite_fill s.descField cfg.description },
      [.fillDescription cfg.description])
  else (s, [])

/-- The description block (lines 378-405): the specific selector first; any
raise in that block (including a crash from the trailing health check) falls
back to the generic selector list. -/
def fillDescPhase (e : CreateEnv) (cfg : Config) (s : PageState) :
    PageState × List UIEvent :=
  if e.descSpecific then
    let s1 := { s with descField := overwrite_fill s.descField cfg.description }
    if is_browser_alive e.aliveAfterDesc then (s1, [.fillDescription cfg.description])
    else
      let r := descFallbackPhase e cfg s1
      (r.1, .fillDescription cfg.description :: r.2)
  else descFallbackPhase e cfg s

/-- The generic instruction selectors (lines 418-434). -/
def instrFallbackPhase (e : CreateEnv) (cfg : Config) (s : PageState) :
    PageState × List UIEvent :=
  if e.instrFallbacks.contains true then
    ({ s with instrField := overwrite_fill s.instrField cfg.instructions },
      [.fillInstructions cfg.instructions])
  else (s, [])

/-- The instructions block (lines 407-434), same structure as description. -/
def fillInstrPhase (e : CreateEnv) (cfg : Config) (s : PageState) :
    PageState × List UIEvent :=
  if e.instrSpecific then
    let s1 := { s with instrField := overwrite_fill s.instrField cfg.instructions }
    if is_browser_alive e.aliveAfterInstr then (s1, [.fillInstructions cfg.instructions])
    else
      let r := instrFallbackPhase e cfg s1
      (r.1, .fillInstructions cfg.instructions :: r.2)
  else instrFallbackPhase e cfg s

/-- Result of one `create_new_gpt` execution: its return/raise, the final
page state, and the UI trace. -/
structure CreateResult where
  result : Except PyExc Bool
  state : PageState
  events : List UIEvent

/-- Model of `GPTManager.create_new_gpt` (lines 323-455): entry health check,
navigation branch, Configure tab, the three field blocks, conversation
starters, optional actions configuration (the schema file load at line 441
may raise a swallowed generic error), then `save_gpt` whose return value is
ignored.  Crashes re-raise (lines 450-452); any other exception yields
`False` (lines 453-455). -/
def create_new_gpt (e : CreateEnv) (cfg : Config) (existing : Option String)
    (s0 : PageState) : CreateResult :=
  match ensure_browser_alive e.aliveEntry with
  | .error ex => ⟨.error ex, s0, []⟩
  | .ok _ =>
    match createPrologue e existing with
    | .error ex => ⟨.error ex, s0, []⟩
    | .ok false => ⟨.ok false, s0, []⟩
    | .ok true =>
      let ev0 : List UIEvent := [.clickConfigureTab]
      let r1 := fillNamePhase e cfg s0
      let r2 := fillDescPhase e cfg r1.1
      let r3 := fillInstrPhase e cfg r2.1
      let ev4 := add_conversation_starters e.starters cfg.conversation_starters
      let evs := ev0 ++ r1.2 ++ r2.2 ++ r3.2 ++ ev4
      match cfg.openapiSpec with
      | none =>
        match save_gpt e.save with
        | .error ex => ⟨.error ex, r3.1, evs⟩
        | .ok ev5 => ⟨.ok true, r3.1, evs ++ ev5⟩
      | some specText =>
        if e.openapiLoadThrows then ⟨.ok false, r3.1, evs⟩
        else
          match configure_actions e.actions specText r3.1 with
          | .error ex => ⟨.error ex, r3.1, evs⟩
          | .ok (s4, ev5) =>
            match save_gpt e.save with
            | .error ex => ⟨.error ex, s4, evs ++ ev5⟩
            | .ok ev6 => ⟨.ok true, s4, evs ++ ev5 ++ ev6⟩

/-- Oracle for one iteration of the retry loop in `setup_gpt`
(lines 917-968). -/
structure AttemptEnv where
  configThrows : Bool
  config : Config
  initThrows : Bool
  login : LoginEnv
  check : CheckEnv
  create : CreateEnv
  page0 : PageState

/-- How one attempt ended: `success` means `return "SUCCESS"` was reached;
`retryable` covers crashes, generic errors and the soft login failure, all of
which lead to the next iteration (or exhaustion). -/
inductive AttemptOutcome where
  | success
  | retryable
  deriving Repr, DecidableEq

/-- Events visible at the supervisor level.  `ui` embeds workflow UI events,
tagged with the attempt index. -/
inductive Ev where
  | configRead (i : Nat)
  | browserInit (i : Nat)
  | browserClose (i : Nat)
  | ui (i : Nat) (u : UIEvent)
  deriving Repr, DecidableEq

def Ev.isConfigRead : Ev → Bool
  | .configRead _ => true
  | _ => false

def Ev.isInit : Ev → Bool
  | .browserInit _ => true
  | _ => false

def Ev.isCloseOf (i : Nat) : Ev → Bool
  | .browserClose j => j == i
  | _ => false

def Ev.isSaveClick : Ev → Bool
  | .ui _ (.clickSaveButton _) => true
  | _ => false

def Ev.tag : Ev → Nat
  | .configRead i => i
  | .browserInit i => i
  | .browserClose i => i
  | .ui i _ => i

/-- The `try` body of one attempt (lines 920-944), without the `finally`:
read the configuration, initialize the browser, log in (a `False` result
retries, line 930-935), look up an existing GPT, run `create_new_gpt` with
its result ignored, then `return "SUCCESS"`. -/
def attemptBody (i : Nat) (e : AttemptEnv) : AttemptOutcome × List Ev :=
  if e.configThrows then (.retryable, [.configRead i])
  else if e.initThrows then (.retryable, [.configRead i, .browserInit i])
  else
    let pre : List Ev := [.configRead i, .browserInit i]
    match login_to_openai e.login with
    | .error _ => (.retryable, pre)
    | .ok false => (.retryable, pre)
    | .ok true =>
      match check_existing_gpt e.check with
      | .error _ => (.retryable, pre)
      | .ok ex =>
        let r := create_new_gpt e.create e.config ex e.page0
        let uiEvs := r.events.map (Ev.ui i)
        match r.result with
        | .error _ => (.retryable, pre ++ uiEvs)
        | .ok _ => (.success, pre ++ uiEvs)

/-- One attempt including the `finally` of lines 962-968: `close_browser` is
invoked unconditionally after the body, on every exit path. -/
def attemptRun (i : Nat) (e : AttemptEnv) : AttemptOutcome × List Ev :=
  let r := attemptBody i e
  (r.1, r.2 ++ [.browserClose i])

/-- The retry loop of `setup_gpt` (lines 917-968), with `n` iterations left:
a successful attempt returns `"SUCCESS"` immediately; anything else proceeds
to the next iteration; exhaustion returns `None` (line 972 and the early
returns at lines 935/952/960 are observationally identical). -/
def setupLoop (envs : Nat → AttemptEnv) (i : Nat) : Nat → Option String × List Ev
  | 0 => (none, [])
  | n + 1 =>
    let r := attemptRun i (envs i)
    match r.1 with
    | .success => (some "SUCCESS", r.2)
    | .retryable =>
      let rest := setupLoop envs (i + 1) n
      (rest.1, r.2 ++ rest.2)

/-- Model of `setup_gpt` (lines 913-972): `max_retries = 3`. -/
def setup_gpt (envs : Nat → AttemptEnv) : Option String × List Ev :=
  setupLoop envs 0 3

/-- Number of attempts the loop actually executes, with `n` iterations left. -/
def numAttemptsLoop (envs : Nat → AttemptEnv) (i : Nat) : Nat → Nat
  | 0 => 0
  | n + 1 =>
    if (attemptRun i (envs i)).1 = .success then 1
    else 1 + numAttemptsLoop envs (i + 1) n

/-- Number of attempts `setup_gpt` executes. -/
def numAttempts (envs : Nat → AttemptEnv) : Nat := numAttemptsLoop envs 0 3

/-- Events of the teardown `close_browser` (lines 116-160). -/
inductive CloseEv where
  | cookiesSaved
  | cookiesSaveFailed
  | closePage
  | closeContext
  | closeBrowser
  | forceCloseBrowser
  deriving Repr, DecidableEq

/-- Oracle for one execution of `close_browser` (lines 116-160). -/
structure CloseEnv where
  saveCookiesThrows : Bool
  pagePresent : Bool
  pageIsClosed : Bool
  pageCloseThrows : Bool
  contextPresent : Bool
  contextCloseThrows : Bool
  browserPresent : Bool
  browserCloseThrows : Bool
  forceCloseThrows : Bool
  deriving Repr, DecidableEq

/-- Model of `save_cookies` (lines 59-68): a no-op without a context; its own handler
swallows every failure, so nothing propagates to `close_browser`. -/
def save_cookies_evs (e : CloseEnv) : List CloseEv :=
  if e.contextPresent then
    (if e.saveCookiesThrows then [.cookiesSaveFailed] else [.cookiesSaved])
  else []

/-- The `except` branch of lines 146-155: force-close the browser if its
reference is still set, swallowing a second failure. -/
def forceCloseEvs (e : CloseEnv) (browserRef : Bool) : List CloseEv :=
  if browserRef then (if e.forceCloseThrows then [] else [.forceCloseBrowser]) else []

/-- Result of `close_browser`: its event trace and the final reference state
(lines 157-160 unconditionally reset all three references). -/
structure CloseResult where
  events : List CloseEv
  pageRef : Bool
  contextRef : Bool
  browserRef : Bool
  deriving Repr, DecidableEq

/-- The close steps of lines 124-155: page close, context close and browser
close inside the single `try` of line 124; its `except` (lines 146-155) only
force-closes the browser. -/
def closeSeqEvs (e : CloseEnv) : List CloseEv :=
  if e.pagePresent && !e.pageIsClosed && e.pageCloseThrows then
    forceCloseEvs e e.browserPresent
  else
    let evs1 : List CloseEv :=
      if e.pagePresent && !e.pageIsClosed then [.closePage] else []
    if e.contextPresent && e.contextCloseThrows then
      evs1 ++ forceCloseEvs e e.browserPresent
    else
      let evs2 := if e.contextPresent then evs1 ++ [CloseEv.closeContext] else evs1
      if e.browserPresent && e.browserCloseThrows then
        evs2 ++ forceCloseEvs e e.browserPresent
      else if e.browserPresent then evs2 ++ [CloseEv.closeBrowser] else evs2

/-- Model of `GPTManager.close_browser` (lines 116-160): cookie save first (guarded on
its own, lines 118-122), then the close sequence, then the unconditional
reference reset of lines 157-160. -/
def close_browser (e : CloseEnv) : CloseResult :=
  ⟨save_cookies_evs e ++ closeSeqEvs e, false, false, false⟩

/-- Recognizer for one of the resource-closing steps of teardown. -/
def isCloseStep : CloseEv → Bool
  | .closePage => true
  | .closeContext => true
  | .closeBrowser => true
  | .forceCloseBrowser => true
  | _ => false

/-- Recognizer for a conversation-starter fill action. -/
def isStarterFill : UIEvent → Bool
  | .fillStarter _ _ => true
  | _ => false

/-- Recognizer for the visibility-restriction ("Only me") click. -/
def isOnlyMeClick : UIEvent → Bool
  | .clickOnlyMe => true
  | _ => false

def Ev.isClose : Ev → Bool
  | .browserClose _ => true
  | _ => false

/-- The per-attempt event blocks the retry loop produces, in order. -/
def attemptBlocks (envs : Nat → AttemptEnv) (i : Nat) : Nat → List (List Ev)
  | 0 => []
  | n + 1 =>
    match (attemptRun i (envs i)).1 with
    | .success => [(attemptRun i (envs i)).2]
    | .retryable => (attemptRun i (envs i)).2 :: attemptBlocks envs (i + 1) n

/-! ### Concrete sample environments, used by witnesses and counterexamples -/

/-- A fully healthy session probe. -/
def healthOk : HealthEnv := ⟨true, true, true, some false, some ()⟩

/-- A session whose round-trip evaluation raises: the crash signature. -/
def healthDead : HealthEnv := ⟨true, true, true, some false, none⟩

/-- A login where the session is already authenticated. -/
def loginOkEnv : LoginEnv := ⟨false, false, healthOk, false, false, true, healthOk⟩

/-- A login where the profile button never appears within the bound. -/
def loginSoftFailEnv : LoginEnv := ⟨false, false, healthOk, true, false, false, healthOk⟩

/-- A login where the browser crashes right after the profile button appears:
the post-login `ensure_browser_alive` at line 220 raises. -/
def loginCrashEnv : LoginEnv := ⟨false, false, healthOk, true, false, true, healthDead⟩

/-- An existing-GPT lookup that finds nothing, with a healthy session. -/
def checkOkEnv : CheckEnv := ⟨healthOk, false, healthOk, false⟩

/-- Starter section resolving with four slots, every fill succeeding. -/
def startersOkEnv : StartersEnv :=
  ⟨true, 4, fun _ => true, fun _ => true, fun _ => false, fun _ => true⟩

/-- Actions section resolving, specific schema selector resolving. -/
def actionsOkEnv : ActionsEnv :=
  ⟨healthOk, true, [some "Create new action"], true, true, [], [true, false, false],
    false, false, []⟩

/-- Save step where the first selector resolves and the update dialog shows. -/
def saveOkEnv : SaveEnv :=
  ⟨healthOk, [true, false, false, false, false, false], .gptUpdated, ⟨true, true⟩, true⟩

/-- Save step where none of the six save selectors resolves. -/
def saveNoButtonEnv : SaveEnv :=
  ⟨healthOk, [false, false, false, false, false, false], .timeout, ⟨true, true⟩, true⟩

def navOkEnv : NavEnv := ⟨false, healthOk⟩

/-- A workflow where every selector resolves and the session stays healthy. -/
def okCreateEnv : CreateEnv :=
  ⟨healthOk, false, healthOk, navOkEnv, true, healthOk, true, healthOk, [],
    true, healthOk, [], startersOkEnv, false, actionsOkEnv, saveOkEnv⟩

def okConfig : Config := ⟨"Helper", "d", "i", [], none⟩

/-- A configuration carrying a serialized integration schema. -/
def specConfig : Config := ⟨"Helper", "d", "i", [], some "SPEC"⟩

def okPage : PageState := ⟨⟨"", false⟩, ⟨"", false⟩, ⟨"", false⟩, ⟨"", false⟩⟩

/-- A page whose fields are pre-seeded with sentinel text. -/
def seededPage : PageState :=
  ⟨⟨"OLD", false⟩, ⟨"OLD", false⟩, ⟨"OLD", false⟩, ⟨"OLD", false⟩⟩

/-- An attempt in which everything succeeds. -/
def okAttemptEnv : AttemptEnv :=
  ⟨false, okConfig, false, loginOkEnv, checkOkEnv, okCreateEnv, okPage⟩

/-- Attempts whose configuration read always raises. -/
def cexEnvsC2 : Nat → AttemptEnv :=
  fun _ => { okAttemptEnv with configThrows := true }

/-- An attempt in which every step succeeds except that no save-button
selector resolves, so the save control is never activated. -/
def cexEnvC4 : AttemptEnv :=
  { okAttemptEnv with create := { okCreateEnv with save := saveNoButtonEnv } }

def cexEnvsC4 : Nat → AttemptEnv := fun _ => cexEnvC4

/-- A run whose first attempt fails at login and whose second succeeds. -/
def wEnvsC3 : Nat → AttemptEnv :=
  fun i => if i = 0 then { okAttemptEnv with login := loginSoftFailEnv } else okAttemptEnv

/-- Teardown in which closing the page raises while the context and browser
are both still open and nothing else fails. -/
def cexCloseEnv : CloseEnv :=
  ⟨false, true, false, true, true, false, true, false, false⟩

/-- Save step resolving on the second selector, share dialog, view control
absent. -/
def wSaveEnv : SaveEnv :=
  ⟨healthOk, [false, true, false, false, false, false], .shareGPT, ⟨true, true⟩, false⟩

/-! ## Helper lemmas -/

theorem countP_zero_of_all {α : Type} (p : α → Bool) :
    ∀ l : List α, (∀ a ∈ l, p a = false) → l.countP p = 0 := by
  intro l h
  rw [List.countP_eq_zero]
  intro a ha
  simp [h a ha]

theorem ensure_ok_of_alive (h : HealthEnv) (ha : is_browser_alive h = true) :
    ensure_browser_alive h = .ok () := by
  simp [ensure_browser_alive, ha]

theorem closeSeq_cookie_independent (e : CloseEnv) (b : Bool) :
    closeSeqEvs { e with saveCookiesThrows := b } = closeSeqEvs e := by
  cases e
  rfl

theorem filter_cookie_evs (e : CloseEnv) :
    (save_cookies_evs e).filter isCloseStep = [] := by
  unfold save_cookies_evs
  split
  · split <;> rfl
  · rfl

/-! ## Claim theorems -/

/-- Claim C7: `is_browser_alive` returns `false` without letting an exception
escape whenever the browser, context or page reference is absent, whenever the
page reports itself closed (or that probe raises), or whenever the round-trip
evaluation raises; and `ensure_browser_alive` raises `BrowserCrashedException`
exactly when the check is `false` and returns normally otherwise. -/
theorem health_monitor_contract (e : HealthEnv) :
    is_browser_alive { e with browserPresent := false } = false ∧
    is_browser_alive { e with pagePresent := false } = false ∧
    is_browser_alive { e with contextPresent := false } = false ∧
    is_browser_alive { e with isClosedResult := some true } = false ∧
    is_browser_alive { e with isClosedResult := none } = false ∧
    is_browser_alive { e with evalResult := none } = false ∧
    (ensure_browser_alive e = .error (.browserCrashed "Browser is not responsive")
        ↔ is_browser_alive e = false) ∧
    (ensure_browser_alive e = .ok () ↔ is_browser_alive e = true) := by
  obtain ⟨b, p, c, ic, ev⟩ := e
  refine ⟨by simp [is_browser_alive], by simp [is_browser_alive],
    by simp [is_browser_alive], ?_, ?_, ?_, ?_, ?_⟩
  · unfold is_browser_alive
    split <;> rfl
  · unfold is_browser_alive
    split <;> rfl
  · unfold is_browser_alive
    split
    · rfl
    · cases ic with
      | none => rfl
      | some v => cases v <;> rfl
  · by_cases ha : is_browser_alive ⟨b, p, c, ic, ev⟩ = true <;>
      simp [ensure_browser_alive, ha]
  · by_cases ha : is_browser_alive ⟨b, p, c, ic, ev⟩ = true <;>
      simp [ensure_browser_alive, ha]

/-- Claim C1 (refuted by the code, contradicting the comment in the source
that says "Re-raise browser crashes to trigger restart"): when the browser
crashes during the post-login wait (the `ensure_browser_alive` at line 220),
the inner `except Exception` at line 224 catches the `BrowserCrashedException`
and re-raises it wrapped as a generic exception, so `login_to_openai` returns
`False` — a soft login failure — instead of propagating the crash.  By
contrast a crash at the post-navigation check (line 195) does propagate. -/
theorem login_crash_downgraded_to_soft_failure :
    login_to_openai loginCrashEnv = .ok false ∧
    is_browser_alive loginCrashEnv.aliveAfterLogin = false ∧
    (∀ ex, login_to_openai loginCrashEnv ≠ .error ex) ∧
    login_to_openai { loginCrashEnv with aliveAfterNav := healthDead } =
      .error (.browserCrashed "Browser is not responsive") := by
  refine ⟨rfl, rfl, ?_, rfl⟩
  intro ex h
  rw [show login_to_openai loginCrashEnv = Except.ok false from rfl] at h
  exact Except.noConfusion h

/-- Claim C6 counterexample: with the page present and failing to close while
the context and browser are still open, `close_browser` never closes the
context — the three close steps share one `try`, so the context step is
skipped and only the browser is force-closed. -/
theorem teardown_skips_context_close_counterexample :
    cexCloseEnv.pagePresent = true ∧ cexCloseEnv.pageIsClosed = false ∧
    cexCloseEnv.pageCloseThrows = true ∧ cexCloseEnv.contextPresent = true ∧
    cexCloseEnv.browserPresent = true ∧
    CloseEv.closeContext ∉ (close_browser cexCloseEnv).events ∧
    (close_browser cexCloseEnv).events = [.cookiesSaved, .forceCloseBrowser] := by
  refine ⟨rfl, rfl, rfl, rfl, rfl, ?_, rfl⟩
  decide

/-- Claim C6 amended: the cookie-persist step is independently guarded and its
failure never changes the close steps, and all references are cleared on every
exit path; but the page/context/browser closes share a single guard: when
closing the page fails, closing the context is skipped and the browser is
closed only through the force-close fallback; when nothing fails all three
closes run in order. -/
theorem teardown_guard_structure (e : CloseEnv) :
    ((close_browser e).pageRef = false ∧ (close_browser e).contextRef = false ∧
      (close_browser e).browserRef = false) ∧
    (∀ bA bB : Bool,
      ((close_browser { e with saveCookiesThrows := bA }).events.filter isCloseStep) =
      ((close_browser { e with saveCookiesThrows := bB }).events.filter isCloseStep)) ∧
    (e.pagePresent = true → e.pageIsClosed = false → e.pageCloseThrows = true →
      e.contextPresent = true → e.browserPresent = true → e.forceCloseThrows = false →
      CloseEv.closeContext ∉ (close_browser e).events ∧
      CloseEv.forceCloseBrowser ∈ (close_browser e).events) ∧
    (e.pagePresent = true → e.pageIsClosed = false → e.pageCloseThrows = false →
      e.contextPresent = true → e.contextCloseThrows = false →
      e.browserPresent = true → e.browserCloseThrows = false →
      (close_browser e).events =
        save_cookies_evs e ++ [.closePage, .closeContext, .closeBrowser]) := by
  refine ⟨⟨rfl, rfl, rfl⟩, ?_, ?_, ?_⟩
  · intro bA bB
    simp [close_browser, List.filter_append, filter_cookie_evs,
      closeSeq_cookie_independent]
  · intro hp hpc hpt hc hb hf
    have hseq : closeSeqEvs e = [CloseEv.forceCloseBrowser] := by
      simp [closeSeqEvs, forceCloseEvs, hp, hpc, hpt, hb, hf]
    constructor
    · simp [close_browser, hseq, save_cookies_evs]
      split <;> simp
    · simp [close_browser, hseq]
  · intro hp hpc hpt hc hcc hb hbc
    have hseq : closeSeqEvs e =
        [CloseEv.closePage, CloseEv.closeContext, CloseEv.closeBrowser] := by
      simp [closeSeqEvs, hp, hpc, hpt, hc, hcc, hb, hbc]
    simp [close_browser, hseq]

/-- Claim C6 amended, witness at concrete inputs: in the page-close-failure
teardown the context close is skipped while the browser is force-closed, and
in a failure-free teardown all three closes run in order. -/
theorem teardown_guard_structure_witness :
    (CloseEv.closeContext ∉ (close_browser cexCloseEnv).events ∧
      CloseEv.forceCloseBrowser ∈ (close_browser cexCloseEnv).events) ∧
    (close_browser ⟨false, true, false, false, true, false, true, false, false⟩).events =
      save_cookies_evs ⟨false, true, false, false, true, false, true, false, false⟩ ++
        [.closePage, .closeContext, .closeBrowser] := by
  have h1 := teardown_guard_structure cexCloseEnv
  have h2 := teardown_guard_structure ⟨false, true, false, false, true, false, true, false, false⟩
  exact ⟨h1.2.2.1 rfl rfl rfl rfl rfl rfl, h2.2.2.2 rfl rfl rfl rfl rfl rfl rfl⟩

/-- Claim C8: once the save control was activated, the dialog handler maps the
observed dialog to exactly one of three outcomes: the share signature drives
one visibility-restriction click and a confirm click before the terminal
view-resource sub-flow; the update signature runs the terminal sub-flow
directly with no visibility action; and neither signature within the bound
yields a normally-returned (never raised) unrecognized outcome. -/
theorem dialog_state_machine (e : SaveEnv) (k : Nat)
    (halive : is_browser_alive e.aliveEntry = true)
    (hbtn : e.buttonResolves.findIdx? (fun b => b) = some k)
    (honly : e.share.onlyMeFound = true)
    (hds : e.share.dialogSaveFound = true) :
    (e.dialog = .shareGPT →
      save_gpt e =
        .ok ([.clickSaveButton k, .clickOnlyMe, .clickDialogSave] ++ handle_final_dialog e) ∧
      (handle_share_gpt_dialog e).countP isOnlyMeClick = 1) ∧
    (e.dialog = .gptUpdated →
      save_gpt e = .ok (.clickSaveButton k :: handle_final_dialog e) ∧
      (∀ u ∈ handle_final_dialog e, isOnlyMeClick u = false ∧ u ≠ .clickDialogSave)) ∧
    (e.dialog = .timeout → save_gpt e = .ok [.clickSaveButton k]) := by
  have hens := ensure_ok_of_alive _ halive
  have hfinal : ∀ u ∈ handle_final_dialog e, isOnlyMeClick u = false ∧ u ≠ .clickDialogSave := by
    intro u hu
    unfold handle_final_dialog at hu
    split at hu
    · simp at hu
      subst hu
      exact ⟨rfl, by simp⟩
    · simp at hu
  have hshare : handle_share_gpt_dialog e =
      .clickOnlyMe :: .clickDialogSave :: handle_final_dialog e := by
    simp [handle_share_gpt_dialog, honly, hds]
  refine ⟨?_, ?_, ?_⟩
  · intro hd
    constructor
    · simp [save_gpt, hens, hbtn, hd, hshare]
    · rw [hshare, List.countP_cons, List.countP_cons,
        countP_zero_of_all _ _ (fun u hu => (hfinal u hu).1)]
      rfl
  · intro hd
    exact ⟨by simp [save_gpt, hens, hbtn, hd], hfinal⟩
  · intro hd
    simp [save_gpt, hens, hbtn, hd]

/-- Claim C8 witness: at a concrete share-dialog fixture the trace is the save
click, one "Only me" click and the confirm click, and the visibility action is
invoked exactly once. -/
theorem dialog_state_machine_witness :
    save_gpt wSaveEnv = .ok [.clickSaveButton 1, .clickOnlyMe, .clickDialogSave] ∧
    (handle_share_gpt_dialog wSaveEnv).countP isOnlyMeClick = 1 := by
  have h := (dialog_state_machine wSaveEnv 1 rfl rfl rfl rfl).1 rfl
  exact ⟨h.1, h.2⟩

/-! ## Retry-supervisor lemmas -/

theorem countP_ui_map_zero (i : Nat) (p : Ev → Bool)
    (hp : ∀ u, p (Ev.ui i u) = false) (l : List UIEvent) :
    (l.map (Ev.ui i)).countP p = 0 := by
  induction l with
  | nil => rfl
  | cons a l ih => simp [List.countP_cons, hp, ih]

theorem tag_ui_beq_false {i j : Nat} (hij : i ≠ j) (u : UIEvent) :
    (Ev.tag (Ev.ui i u) == j) = false := by
  simp only [Ev.tag]
  exact beq_eq_false_iff_ne.mpr hij

theorem attemptRun_count_close (i : Nat) (e : AttemptEnv) :
    ((attemptRun i e).2).countP (Ev.isCloseOf i) = 1 := by
  have hb : (attemptBody i e).2.countP (Ev.isCloseOf i) = 0 := by
    simp only [attemptBody]
    repeat' split
    all_goals
      simp [List.countP_append, List.countP_cons, Ev.isCloseOf,
        countP_ui_map_zero i (Ev.isCloseOf i) (fun _ => rfl)]
  simp [attemptRun, List.countP_append, hb, List.countP_cons, Ev.isCloseOf]

theorem attemptRun_getLast (i : Nat) (e : AttemptEnv) :
    ((attemptRun i e).2).getLast? = some (.browserClose i) := by
  simp [attemptRun, List.getLast?_concat]

theorem attemptRun_count_config (i : Nat) (e : AttemptEnv) :
    ((attemptRun i e).2).countP Ev.isConfigRead = 1 := by
  have hb : (attemptBody i e).2.countP Ev.isConfigRead = 1 := by
    simp only [attemptBody]
    repeat' split
    all_goals
      simp [List.countP_append, List.countP_cons, Ev.isConfigRead,
        countP_ui_map_zero i Ev.isConfigRead (fun _ => rfl)]
  simp [attemptRun, List.countP_append, hb, List.countP_cons, Ev.isConfigRead]

theorem attemptRun_tag_count (i j : Nat) (hij : i ≠ j) (e : AttemptEnv) :
    ((attemptRun i e).2).countP (fun ev => Ev.tag ev == j) = 0 := by
  have hbeq : (i == j) = false := beq_eq_false_iff_ne.mpr hij
  have hb : (attemptBody i e).2.countP (fun ev => Ev.tag ev == j) = 0 := by
    simp only [attemptBody]
    repeat' split
    all_goals
      simp [List.countP_append, List.countP_cons, Ev.tag, hbeq,
        countP_ui_map_zero i (fun ev => Ev.tag ev == j) (tag_ui_beq_false hij)]
  simp only [attemptRun, List.countP_append, List.countP_cons]
  rw [hb]
  simp [Ev.tag, hbeq]

theorem attemptRun_configThrows (i : Nat) (e : AttemptEnv)
    (h : e.configThrows = true) :
    attemptRun i e = (.retryable, [.configRead i, .browserClose i]) := by
  simp [attemptRun, attemptBody, h]

theorem setupLoop_blocks (envs : Nat → AttemptEnv) :
    ∀ n i, (setupLoop envs i n).2 = (attemptBlocks envs i n).flatten := by
  intro n
  induction n with
  | zero => intro i; rfl
  | succ n ih =>
    intro i
    simp only [setupLoop, attemptBlocks]
    cases h : (attemptRun i (envs i)).1 <;> simp [h, ih]

theorem setupLoop_config_count (envs : Nat → AttemptEnv) :
    ∀ n i, (setupLoop envs i n).2.countP Ev.isConfigRead = numAttemptsLoop envs i n := by
  intro n
  induction n with
  | zero => intro i; rfl
  | succ n ih =>
    intro i
    simp only [setupLoop, numAttemptsLoop]
    cases h : (attemptRun i (envs i)).1 <;>
      simp [h, ih, List.countP_append, attemptRun_count_config]

theorem numAttemptsLoop_le (envs : Nat → AttemptEnv) :
    ∀ n i, numAttemptsLoop envs i n ≤ n := by
  intro n
  induction n with
  | zero => intro i; exact Nat.le_refl 0
  | succ n ih =>
    intro i
    simp only [numAttemptsLoop]
    split
    · omega
    · have := ih (i + 1)
      omega

theorem attemptBlocks_length (envs : Nat → AttemptEnv) :
    ∀ n i, (attemptBlocks envs i n).length = numAttemptsLoop envs i n := by
  intro n
  induction n with
  | zero => intro i; rfl
  | succ n ih =>
    intro i
    simp only [attemptBlocks, numAttemptsLoop]
    cases h : (attemptRun i (envs i)).1 with
    | success => simp [h]
    | retryable =>
      simp [h, ih]
      omega

/-- Claim C5: the event block of every attempt ends with exactly one
invocation of `close_browser` (the `finally` of the retry loop), the trace of
the whole run is exactly the concatenation of the per-attempt blocks (so each
teardown precedes the events of the next attempt), and there are as many
blocks as attempts. -/
theorem session_teardown_once_per_attempt (envs : Nat → AttemptEnv) :
    (setup_gpt envs).2 = (attemptBlocks envs 0 3).flatten ∧
    (attemptBlocks envs 0 3).length = numAttempts envs ∧
    numAttempts envs ≤ 3 ∧
    (∀ i, ((attemptRun i (envs i)).2).countP (Ev.isCloseOf i) = 1 ∧
      ((attemptRun i (envs i)).2).getLast? = some (.browserClose i)) :=
  ⟨setupLoop_blocks envs 3 0, attemptBlocks_length envs 3 0,
    numAttemptsLoop_le envs 3 0,
    fun i => ⟨attemptRun_count_close i (envs i), attemptRun_getLast i (envs i)⟩⟩

/-- Claim C3: the supervisor performs at most 3 attempts, and the first
attempt that succeeds ends the run immediately with the success result:
exactly `k + 1` configuration reads happen and no event of any later attempt
(in particular no session open) occurs. -/
theorem retry_bound_and_first_success_stops (envs : Nat → AttemptEnv) (k : Nat)
    (hk : k < 3)
    (hprev : ∀ j, j < k → (attemptRun j (envs j)).1 ≠ .success)
    (hsucc : (attemptRun k (envs k)).1 = .success) :
    (setup_gpt envs).1 = some "SUCCESS" ∧
    numAttempts envs = k + 1 ∧
    numAttempts envs ≤ 3 ∧
    (setup_gpt envs).2.countP Ev.isConfigRead = k + 1 ∧
    (∀ j, k < j → (setup_gpt envs).2.countP (fun ev => Ev.tag ev == j) = 0) := by
  have hr : ∀ j, j < k → (attemptRun j (envs j)).1 = .retryable := by
    intro j hj
    cases h : (attemptRun j (envs j)).1 with
    | success => exact absurd h (hprev j hj)
    | retryable => rfl
  have hle := numAttemptsLoop_le envs 3 0
  interval_cases k
  · refine ⟨?_, ?_, hle, ?_, ?_⟩
    · simp [setup_gpt, setupLoop, hsucc]
    · simp [numAttempts, numAttemptsLoop, hsucc]
    · rw [setup_gpt, setupLoop_config_count]
      simp [numAttemptsLoop, hsucc]
    · intro j hj
      simp only [setup_gpt, setupLoop]
      rw [hsucc]
      exact attemptRun_tag_count 0 j (by omega) (envs 0)
  · have h0 := hr 0 (by omega)
    refine ⟨?_, ?_, hle, ?_, ?_⟩
    · simp [setup_gpt, setupLoop, h0, hsucc]
    · simp [numAttempts, numAttemptsLoop, h0, hsucc]
    · rw [setup_gpt, setupLoop_config_count]
      simp [numAttemptsLoop, h0, hsucc]
    · intro j hj
      simp only [setup_gpt, setupLoop]
      rw [h0, hsucc]
      simp only [List.countP_append]
      rw [attemptRun_tag_count 0 j (by omega) (envs 0),
        attemptRun_tag_count 1 j (by omega) (envs 1)]
  · have h0 := hr 0 (by omega)
    have h1 := hr 1 (by omega)
    refine ⟨?_, ?_, hle, ?_, ?_⟩
    · simp [setup_gpt, setupLoop, h0, h1, hsucc]
    · simp [numAttempts, numAttemptsLoop, h0, h1, hsucc]
    · rw [setup_gpt, setupLoop_config_count]
      simp [numAttemptsLoop, h0, h1, hsucc]
    · intro j hj
      simp only [setup_gpt, setupLoop]
      rw [h0, h1, hsucc]
      simp only [List.countP_append]
      rw [attemptRun_tag_count 0 j (by omega) (envs 0),
        attemptRun_tag_count 1 j (by omega) (envs 1),
        attemptRun_tag_count 2 j (by omega) (envs 2)]

/-- Claim C3 witness: for the run whose first attempt fails at login and whose
second succeeds, the result is success after exactly two attempts and two
configuration reads. -/
theorem retry_bound_and_first_success_stops_witness :
    (setup_gpt wEnvsC3).1 = some "SUCCESS" ∧ numAttempts wEnvsC3 = 2 ∧
    (setup_gpt wEnvsC3).2.countP Ev.isConfigRead = 2 := by
  have h := retry_bound_and_first_success_stops wEnvsC3 1 (by omega)
    (by
      intro j hj
      have hj0 : j = 0 := by omega
      subst hj0
      decide)
    (by decide)
  exact ⟨h.1, h.2.1, h.2.2.2.1⟩

/-- Claim C2 counterexample: with a configuration file that always fails to
read, the run reads the configuration three times — once per attempt — not
exactly once; no browser is ever launched and the run reports failure. -/
theorem config_invalid_single_read_counterexample :
    (setup_gpt cexEnvsC2).1 = none ∧
    (setup_gpt cexEnvsC2).2.countP Ev.isConfigRead = 3 ∧
    (setup_gpt cexEnvsC2).2.countP Ev.isConfigRead ≠ 1 ∧
    (setup_gpt cexEnvsC2).2.countP Ev.isInit = 0 := by
  decide

/-- Claim C2 amended: a missing or malformed configuration document makes
every attempt fail before its browser is launched — the read is retried once
per attempt, three times in all — and the run reports failure with no browser
session ever opened. -/
theorem config_invalid_reread_each_attempt (envs : Nat → AttemptEnv)
    (h : ∀ i, i < 3 → (envs i).configThrows = true) :
    (setup_gpt envs).1 = none ∧
    (setup_gpt envs).2.countP Ev.isConfigRead = 3 ∧
    (setup_gpt envs).2.countP Ev.isInit = 0 := by
  have h0 := attemptRun_configThrows 0 (envs 0) (h 0 (by omega))
  have h1 := attemptRun_configThrows 1 (envs 1) (h 1 (by omega))
  have h2 := attemptRun_configThrows 2 (envs 2) (h 2 (by omega))
  refine ⟨?_, ?_, ?_⟩ <;>
    simp [setup_gpt, setupLoop, h0, h1, h2, List.countP_append, List.countP_cons,
      Ev.isConfigRead, Ev.isInit]

/-- Claim C2 amended, witness at the concrete always-failing configuration. -/
theorem config_invalid_reread_each_attempt_witness :
    (setup_gpt cexEnvsC2).1 = none ∧
    (setup_gpt cexEnvsC2).2.countP Ev.isConfigRead = 3 ∧
    (setup_gpt cexEnvsC2).2.countP Ev.isInit = 0 :=
  config_invalid_reread_each_attempt cexEnvsC2 (fun _ _ => rfl)

/-- Claim C4 counterexample: an attempt in which no save-button selector
resolves — so the save control is never activated — is still reported as a
confirmed success by the run (the return value of `save_gpt` is discarded at
line 445 and that of `create_new_gpt` at line 941). -/
theorem success_reported_without_save_counterexample :
    (setup_gpt cexEnvsC4).1 = some "SUCCESS" ∧
    (setup_gpt cexEnvsC4).2.countP Ev.isSaveClick = 0 := by
  decide

/-- Claim C4 amended: an attempt is reported as success whenever
`create_new_gpt` returns without raising, regardless of its Boolean result
and regardless of whether the save control was activated; activation of the
save control is not required for the success report. -/
theorem attempt_reports_success_ignoring_save (i : Nat) (e : AttemptEnv)
    (ex : Option String) (b : Bool)
    (hc : e.configThrows = false) (hi : e.initThrows = false)
    (hl : login_to_openai e.login = .ok true)
    (hch : check_existing_gpt e.check = .ok ex)
    (hcr : (create_new_gpt e.create e.config ex e.page0).result = .ok b) :
    (attemptRun i e).1 = .success := by
  simp [attemptRun, attemptBody, hc, hi, hl, hch, hcr]

/-- Claim C4 amended, witness: the no-save-button attempt is success. -/
theorem attempt_reports_success_ignoring_save_witness :
    (attemptRun 0 cexEnvC4).1 = .success :=
  attempt_reports_success_ignoring_save 0 cexEnvC4 none true rfl rfl rfl rfl rfl

/-! ## Fill-phase lemmas -/

theorem fillNamePhase_name (e : CreateEnv) (cfg : Config) (s : PageState)
    (hname : e.nameResolves = true) :
    ((fillNamePhase e cfg s).1).nameField.content = cfg.name := by
  simp [fillNamePhase, hname, overwrite_fill, fillValue]

theorem fillNamePhase_keeps (e : CreateEnv) (cfg : Config) (s : PageState) :
    ((fillNamePhase e cfg s).1).descField = s.descField ∧
    ((fillNamePhase e cfg s).1).instrField = s.instrField ∧
    ((fillNamePhase e cfg s).1).schemaField = s.schemaField := by
  unfold fillNamePhase
  split <;> exact ⟨rfl, rfl, rfl⟩

theorem fillDescPhase_desc (e : CreateEnv) (cfg : Config) (s : PageState)
    (hdesc : e.descSpecific = true ∨ e.descFallbacks.contains true = true) :
    ((fillDescPhase e cfg s).1).descField.content = cfg.description := by
  by_cases hd : e.descSpecific = true
  · simp only [fillDescPhase, hd, if_true]
    split
    · rfl
    · unfold descFallbackPhase
      split <;> rfl
  · have hd2 : e.descSpecific = false := by simpa using hd
    have hf : true ∈ e.descFallbacks := by
      rcases hdesc with h | h
      · exact absurd h hd
      · simpa using h
    simp [fillDescPhase, hd2, descFallbackPhase, hf, overwrite_fill, fillValue]

theorem fillDescPhase_keeps (e : CreateEnv) (cfg : Config) (s : PageState) :
    ((fillDescPhase e cfg s).1).nameField = s.nameField ∧
    ((fillDescPhase e cfg s).1).instrField = s.instrField ∧
    ((fillDescPhase e cfg s).1).schemaField = s.schemaField := by
  unfold fillDescPhase descFallbackPhase
  repeat' split
  all_goals exact ⟨rfl, rfl, rfl⟩

theorem fillInstrPhase_instr (e : CreateEnv) (cfg : Config) (s : PageState)
    (hinstr : e.instrSpecific = true ∨ e.instrFallbacks.contains true = true) :
    ((fillInstrPhase e cfg s).1).instrField.content = cfg.instructions := by
  by_cases hd : e.instrSpecific = true
  · simp only [fillInstrPhase, hd, if_true]
    split
    · rfl
    · unfold instrFallbackPhase
      split <;> rfl
  · have hd2 : e.instrSpecific = false := by simpa using hd
    have hf : true ∈ e.instrFallbacks := by
      rcases hinstr with h | h
      · exact absurd h hd
      · simpa using h
    simp [fillInstrPhase, hd2, instrFallbackPhase, hf, overwrite_fill, fillValue]

theorem fillInstrPhase_keeps (e : CreateEnv) (cfg : Config) (s : PageState) :
    ((fillInstrPhase e cfg s).1).nameField = s.nameField ∧
    ((fillInstrPhase e cfg s).1).descField = s.descField ∧
    ((fillInstrPhase e cfg s).1).schemaField = s.schemaField := by
  unfold fillInstrPhase instrFallbackPhase
  repeat' split
  all_goals exact ⟨rfl, rfl, rfl⟩

theorem configure_actions_ok (e : ActionsEnv) (t : String) (s : PageState)
    (hact : is_browser_alive e.aliveEntry = true)
    (hschema : (e.sectionResolves = true ∧
        (e.schemaSpecific = true ∨ e.schemaFallbacks.contains true = true)) ∨
      (e.sectionResolves = false ∧ e.fbSchemaFallbacks.contains true = true)) :
    ∃ p : PageState × List UIEvent, configure_actions e t s = .ok p ∧
      p.1.nameField = s.nameField ∧ p.1.descField = s.descField ∧
      p.1.instrField = s.instrField ∧ p.1.schemaField.content = t := by
  have hens := ensure_ok_of_alive _ hact
  rcases hschema with ⟨hsec, hw⟩ | ⟨hsec, hw⟩
  · have hwr : (e.schemaSpecific || e.schemaFallbacks.contains true) = true := by
      rcases hw with h | h
      · simp [h]
      · rw [h]
        simp
    have hca : configure_actions e t s = .ok
        ({ s with schemaField := overwrite_fill s.schemaField t },
          (if (e.buttons.filter isExistingActionButton).isEmpty then
            (if e.createBtnResolves then [UIEvent.clickCreateAction] else [])
          else [UIEvent.clickExistingAction]) ++ [UIEvent.fillSchema t] ++
          (if e.actionSaveResolves.contains true then [UIEvent.clickActionSave]
          else [])) := by
      simp only [configure_actions, hens, hsec, hwr, eq_self_iff_true, if_true]
    exact ⟨_, hca, rfl, rfl, rfl, rfl⟩
  · have hw3 : true ∈ e.fbSchemaFallbacks := by simpa using hw
    have hca : configure_actions e t s = .ok (configure_actions_fallback e t s) := by
      simp [configure_actions, hens, hsec]
    refine ⟨configure_actions_fallback e t s, hca, ?_, ?_, ?_, ?_⟩
    all_goals simp [configure_actions_fallback, hw3, overwrite_fill, fillValue]

/-- Claim C9: every field write of the fill phase — name, description,
instructions and the integration schema — fully replaces prior content: for
an arbitrary initial page state the final content of each field equals the
configured value, independent of what the field previously held (overwrite,
never append). -/
theorem fill_phase_overwrites (e : CreateEnv) (cfg : Config) (ex : Option String)
    (s0 : PageState) (t : String)
    (hentry : is_browser_alive e.aliveEntry = true)
    (hpro : createPrologue e ex = .ok true)
    (hname : e.nameResolves = true)
    (hdesc : e.descSpecific = true ∨ e.descFallbacks.contains true = true)
    (hinstr : e.instrSpecific = true ∨ e.instrFallbacks.contains true = true)
    (hspec : cfg.openapiSpec = some t)
    (hload : e.openapiLoadThrows = false)
    (hact : is_browser_alive e.actions.aliveEntry = true)
    (hschema : (e.actions.sectionResolves = true ∧
        (e.actions.schemaSpecific = true ∨
          e.actions.schemaFallbacks.contains true = true)) ∨
      (e.actions.sectionResolves = false ∧
        e.actions.fbSchemaFallbacks.contains true = true)) :
    (create_new_gpt e cfg ex s0).state.nameField.content = cfg.name ∧
    (create_new_gpt e cfg ex s0).state.descField.content = cfg.description ∧
    (create_new_gpt e cfg ex s0).state.instrField.content = cfg.instructions ∧
    (create_new_gpt e cfg ex s0).state.schemaField.content = t := by
  have hens := ensure_ok_of_alive _ hentry
  obtain ⟨p, hca, hn, hd, hi2, hs⟩ := configure_actions_ok e.actions t
    (fillInstrPhase e cfg (fillDescPhase e cfg (fillNamePhase e cfg s0).1).1).1 hact hschema
  obtain ⟨s4, ev5⟩ := p
  have hstate : (create_new_gpt e cfg ex s0).state = s4 := by
    simp only [create_new_gpt, hens, hpro, hspec, hload]
    rw [hca]
    cases hsv : save_gpt e.save <;> simp
  refine ⟨?_, ?_, ?_, ?_⟩
  · rw [hstate, hn, (fillInstrPhase_keeps e cfg _).1, (fillDescPhase_keeps e cfg _).1]
    exact fillNamePhase_name e cfg s0 hname
  · rw [hstate, hd, (fillInstrPhase_keeps e cfg _).2.1]
    exact fillDescPhase_desc e cfg _ hdesc
  · rw [hstate, hi2]
    exact fillInstrPhase_instr e cfg _ hinstr
  · rw [hstate]
    exact hs

/-- Claim C9 witness: starting from a page whose four fields hold sentinel
text "OLD", the workflow leaves the fields holding exactly the configured
values, with no trace of the old content. -/
theorem fill_phase_overwrites_witness :
    (create_new_gpt okCreateEnv specConfig none seededPage).state.nameField.content = "Helper" ∧
    (create_new_gpt okCreateEnv specConfig none seededPage).state.descField.content = "d" ∧
    (create_new_gpt okCreateEnv specConfig none seededPage).state.instrField.content = "i" ∧
    (create_new_gpt okCreateEnv specConfig none seededPage).state.schemaField.content = "SPEC" :=
  fill_phase_overwrites okCreateEnv specConfig none seededPage "SPEC"
    rfl rfl rfl (Or.inl rfl) (Or.inl rfl) rfl rfl rfl (Or.inl ⟨rfl, Or.inl rfl⟩)

/-- Claim C10: with more than four conversation starters, both the primary
section-based path and the fallback path perform exactly four starter-fill
actions, namely the first four starters in order, discarding the extras. -/
theorem starters_capped_at_four (e : StartersEnv) (starters : List String)
    (hlen : 4 < starters.length)
    (hslots : 4 ≤ e.numInputs)
    (hfill : ∀ j, j < 4 → e.fillOk j = true)
    (hfb : ∀ j, j < 4 → e.fbFound j = true ∧ e.fbIsButton j = false) :
    (add_conversation_starters e starters).countP isStarterFill = 4 ∧
    (add_conversation_starters e starters).filter isStarterFill =
      (starters.take 4).enum.map (fun p => UIEvent.fillStarter p.1 p.2) := by
  rcases starters with _ | ⟨a, starters⟩
  · simp at hlen
  rcases starters with _ | ⟨b, starters⟩
  · simp at hlen
  rcases starters with _ | ⟨c, starters⟩
  · simp at hlen
  rcases starters with _ | ⟨d, rest⟩
  · simp at hlen
  have t4 : (a :: b :: c :: d :: rest).take 4 = [a, b, c, d] := rfl
  have p0 : 0 < e.numInputs := by omega
  have p1 : 1 < e.numInputs := by omega
  have p2 : 2 < e.numInputs := by omega
  have p3 : 3 < e.numInputs := by omega
  have f0 := hfill 0 (by omega)
  have f1 := hfill 1 (by omega)
  have f2 := hfill 2 (by omega)
  have f3 := hfill 3 (by omega)
  have g0 := (hfb 0 (by omega)).1
  have g1 := (hfb 1 (by omega)).1
  have g2 := (hfb 2 (by omega)).1
  have g3 := (hfb 3 (by omega)).1
  have q0 := (hfb 0 (by omega)).2
  have q1 := (hfb 1 (by omega)).2
  have q2 := (hfb 2 (by omega)).2
  have q3 := (hfb 3 (by omega)).2
  by_cases hs : e.sectionResolves = true
  · have hev : add_conversation_starters e (a :: b :: c :: d :: rest) =
        [.fillStarter 0 a, .fillStarter 1 b, .fillStarter 2 c, .fillStarter 3 d] := by
      simp [add_conversation_starters, hs, startersPrimaryFills, t4, List.enum,
        List.enumFrom, List.filterMap, p0, p1, p2, p3, f0, f1, f2, f3]
    rw [hev, t4]
    exact ⟨rfl, rfl⟩
  · have hs2 : e.sectionResolves = false := by simpa using hs
    have hev : add_conversation_starters e (a :: b :: c :: d :: rest) =
        UIEvent.clearStarters ::
          [.fillStarter 0 a, .fillStarter 1 b, .fillStarter 2 c, .fillStarter 3 d] := by
      simp [add_conversation_starters, hs2, startersFallbackFills, t4, List.enum,
        List.enumFrom, List.filterMap, g0, g1, g2, g3, q0, q1, q2, q3]
    rw [hev, t4]
    exact ⟨rfl, rfl⟩

/-- Claim C10 witness: the five-starter configuration of the end-to-end
scenario in the design yields exactly four starter fills, in order. -/
theorem starters_capped_at_four_witness :
    (add_conversation_starters startersOkEnv ["a", "b", "c", "d", "e"]).countP
        isStarterFill = 4 ∧
    (add_conversation_starters startersOkEnv ["a", "b", "c", "d", "e"]).filter
        isStarterFill =
      [.fillStarter 0 "a", .fillStarter 1 "b", .fillStarter 2 "c",
        .fillStarter 3 "d"] := by
  have h := starters_capped_at_four startersOkEnv ["a", "b", "c", "d", "e"]
    (by decide) (by decide) (fun j _ => rfl) (fun j _ => ⟨rfl, rfl⟩)
  refine ⟨h.1, ?_⟩
  rw [h.2]
  rfl

end GPTCreator
